import Mathlib

/-!
Shallow embedding of the BackendRoudase expense-tracking REST API.

The repository ships two Prisma-backed route files:
  * `V1` — the variant without authentication (src/unnamed/part_001);
  * `V2` — the JWT-authenticated variant (src/unnamed/part_002),
plus an older in-memory variant (src/src/routes.ts) whose POST /category
handler coincides with V1's.

The relational store is modelled as lists of rows; Prisma calls
(`findUnique`, `findMany`, `create`, `update`, `delete`, `deleteMany`,
`count`) become list operations.  The migrations in prisma/migrations
declare `ON DELETE RESTRICT` foreign keys Record→User, Record→Category and
Record→Currency; a Prisma `delete` that would violate one of them throws,
the `asyncHandler` forwards the error to the app-level error middleware
(src/unnamed/part_000), and the client sees a 500 "Internal server error".
That DB-enforced behaviour is part of the handler models below.

Timestamps (`createdAt`, `new Date()`) are not modelled; no claim
mentions them.  `bcrypt` hashing/comparison and `jwt` signing/verification
are abstracted as oracle parameters.
-/

/-- A minimal JSON value type for response bodies. -/
inductive JVal where
  | jnull
  | jnum (n : Int)
  | jstr (s : String)
  | jbool (b : Bool)
  | obj (fields : List (String × JVal))
  | arr (elems : List JVal)

/-- Does a JSON value contain `k` as an object key, at any depth? -/
def JVal.hasKeyDeep (k : String) : JVal → Bool
  | .obj [] => false
  | .obj ((k2, v) :: rest) =>
      k2 == k || JVal.hasKeyDeep k v || JVal.hasKeyDeep k (.obj rest)
  | .arr [] => false
  | .arr (v :: rest) => JVal.hasKeyDeep k v || JVal.hasKeyDeep k (.arr rest)
  | _ => false

/-- Encode an optional foreign key as JSON (`null` when absent). -/
def jOptNat : Option Nat → JVal
  | none => .jnull
  | some n => .jnum (n : Int)

/-- JavaScript `String.prototype.trim`: strip leading and trailing
whitespace. -/
def jsTrim (s : String) : String :=
  String.mk (((s.data.dropWhile Char.isWhitespace).reverse.dropWhile
      Char.isWhitespace).reverse)

/-- JavaScript `String.prototype.toLowerCase` (ASCII-relevant part). -/
def jsToLower (s : String) : String := String.mk (s.data.map Char.toLower)

/-- Helper for `jsSplit`: walk the characters, cutting at each separator. -/
def splitCharAux (sep : Char) : List Char → List Char → List String
  | [], acc => [String.mk acc.reverse]
  | c :: rest, acc =>
    if c = sep then String.mk acc.reverse :: splitCharAux sep rest []
    else splitCharAux sep rest (c :: acc)

/-- JavaScript `String.prototype.split` with a one-character separator:
`"".split(" ") = [""]`, `"a  b".split(" ") = ["a", "", "b"]`. -/
def jsSplit (sep : Char) (s : String) : List String :=
  splitCharAux sep s.data []

/-- A query-string parameter as the handlers see it after `Number(...)`:
absent (or empty, hence falsy), present but not numeric (`NaN`), or a
numeric value. -/
inductive QParam where
  | absent
  | invalid
  | val (n : Nat)
deriving Repr, DecidableEq

/-- A response carrying a status code and, for error responses, the
`message` field of the JSON body. -/
structure SimpleResp where
  status : Nat
  message : Option String
deriving Repr, DecidableEq

namespace V1

/-- Row of the `User` table as used by the non-auth variant
(id, name, nullable default currency). -/
structure User where
  id : Nat
  name : String
  defaultCurrencyId : Option Nat
deriving Repr, DecidableEq

/-- Row of the `Category` table. -/
structure Category where
  id : Nat
  name : String
deriving Repr, DecidableEq

/-- Row of the `Currency` table. -/
structure Currency where
  id : Nat
  code : String
  name : String
deriving Repr, DecidableEq

/-- Row of the `Record` table (createdAt not modelled). -/
structure Record where
  id : Nat
  userId : Nat
  categoryId : Nat
  currencyId : Nat
  amount : Int
deriving Repr, DecidableEq

/-- The relational store visible to the non-auth routes, with the
autoincrement counters Prisma maintains for `id` columns. -/
structure DB where
  users : List User
  categories : List Category
  currencies : List Currency
  records : List Record
  nextCategoryId : Nat
  nextRecordId : Nat
deriving Repr, DecidableEq

/-- `prisma.user.findUnique({ where: { id } })`. -/
def DB.findUser (db : DB) (id : Nat) : Option User :=
  db.users.find? (fun u => u.id == id)

/-- `prisma.category.findUnique({ where: { id } })`. -/
def DB.findCategory (db : DB) (id : Nat) : Option Category :=
  db.categories.find? (fun c => c.id == id)

/-- `prisma.currency.findUnique({ where: { id } })`. -/
def DB.findCurrency (db : DB) (id : Nat) : Option Currency :=
  db.currencies.find? (fun c => c.id == id)

/-- DELETE /currency/:id (part_001 lines 268–299): 404 when the currency is
absent, 400 when `prisma.record.count({ where: { currencyId } })` is
positive, otherwise delete and 204.  The delete also carries the
DB-enforced `User_defaultCurrencyId_fkey ... ON DELETE SET NULL` effect:
any user whose `defaultCurrencyId` references the deleted currency has it
set to null. -/
def deleteCurrency (db : DB) (currencyId : Nat) : DB × SimpleResp :=
  match db.findCurrency currencyId with
  | none => (db, ⟨404, some "Currency not found"⟩)
  | some _ =>
    if (db.records.filter (fun r => r.currencyId == currencyId)).length > 0 then
      (db, ⟨400, some "Cannot delete currency: there are records using this currency"⟩)
    else
      let users := db.users.map (fun u =>
        if u.defaultCurrencyId == some currencyId then
          { u with defaultCurrencyId := none }
        else u)
      ({ db with
          currencies := db.currencies.filter (fun c => !(c.id == currencyId)),
          users := users },
       ⟨204, none⟩)

/-- DELETE /user/:userId (part_001 lines 93–116): 404 when the user is
absent, otherwise `prisma.record.deleteMany({ where: { userId } })`
followed by `prisma.user.delete`, then 204. -/
def deleteUser (db : DB) (userId : Nat) : DB × SimpleResp :=
  match db.findUser userId with
  | none => (db, ⟨404, some "User not found"⟩)
  | some _ =>
      ({ db with
          records := db.records.filter (fun r => !(r.userId == userId)),
          users := db.users.filter (fun u => !(u.id == userId)) },
       ⟨204, none⟩)

/-- Result of POST /record: an error response or the created row. -/
inductive RecordResult where
  | err (status : Nat) (message : String)
  | created (r : Record)
deriving Repr, DecidableEq

/-- POST /record (part_001 lines 301–364).  `userId`, `categoryId`,
`amount` are required numbers (the non-number 400 branch is before this
model's inputs).  `currencyId` is `some c` when the body carried a number
(the `typeof currencyId === "number"` test); any other body value takes
the `else` branch, exactly as `none` does here.  JavaScript's
`!user.defaultCurrencyId` is falsy on both `null` and `0`, modelled by
`getD 0 == 0`. -/
def postRecord (db : DB) (userId categoryId : Nat) (amount : Int)
    (currencyId : Option Nat) : DB × RecordResult :=
  match db.findUser userId with
  | none => (db, .err 400 "User does not exist")
  | some user =>
    match db.findCategory categoryId with
    | none => (db, .err 400 "Category does not exist")
    | some _ =>
      match currencyId with
      | some c =>
        match db.findCurrency c with
        | none => (db, .err 400 "Currency does not exist")
        | some _ =>
          let rec0 : Record := ⟨db.nextRecordId, userId, categoryId, c, amount⟩
          ({ db with records := db.records ++ [rec0],
                     nextRecordId := db.nextRecordId + 1 },
           .created rec0)
      | none =>
        if user.defaultCurrencyId.getD 0 == 0 then
          (db, .err 400 "User has no default currency and no currencyId was provided")
        else
          let c := user.defaultCurrencyId.getD 0
          let rec0 : Record := ⟨db.nextRecordId, userId, categoryId, c, amount⟩
          ({ db with records := db.records ++ [rec0],
                     nextRecordId := db.nextRecordId + 1 },
           .created rec0)

/-- Result of GET /record: an error response or the list of matching rows
(the joined user/category/currency includes are not modelled; the rows
determine them). -/
inductive ListResult where
  | err (status : Nat) (message : String)
  | ok (rs : List Record)
deriving Repr, DecidableEq

/-- GET /record?user_id=&category_id= (part_001 lines 416–462): 400 when
neither parameter is supplied, 400 when a supplied one is not numeric,
otherwise the records filtered by each supplied parameter in turn. -/
def getRecords (db : DB) (userIdParam categoryIdParam : QParam) : ListResult :=
  match userIdParam, categoryIdParam with
  | .absent, .absent => .err 400 "At least one of query parameters 'user_id' or 'category_id' is required"
  | .invalid, _ => .err 400 "Invalid user_id"
  | _, .invalid =>
      match userIdParam with
      | .val _ => .err 400 "Invalid category_id"
      | _ => .err 400 "Invalid category_id"
  | .val u, .val c =>
      .ok (((db.records.filter (fun r => r.userId == u))).filter
            (fun r => r.categoryId == c))
  | .val u, .absent => .ok (db.records.filter (fun r => r.userId == u))
  | .absent, .val c => .ok (db.records.filter (fun r => r.categoryId == c))

/-- Result of POST /category: an error response or the created row. -/
inductive CategoryResult where
  | err (status : Nat) (message : String)
  | created (c : Category)
deriving Repr, DecidableEq

/-- POST /category (part_001 lines 178–196; identical logic in
src/src/routes.ts lines 106–121): `!name` rejects a missing or empty
name with 400 (a non-string body value is rejected by the `typeof`
test, outside this model's `Option String` input); otherwise the
category is stored with `name.trim()`. -/
def postCategory (db : DB) (name : Option String) : DB × CategoryResult :=
  match name with
  | none => (db, .err 400 "Field 'name' is required")
  | some s =>
    if s == "" then (db, .err 400 "Field 'name' is required")
    else
      let cat : Category := ⟨db.nextCategoryId, jsTrim s⟩
      ({ db with categories := db.categories ++ [cat],
                 nextCategoryId := db.nextCategoryId + 1 },
       .created cat)

/-- Result of PATCH /user/:userId/currency: an error response or the
updated user together with the joined default currency. -/
inductive PatchUserResult where
  | err (status : Nat) (message : String)
  | ok (u : User) (joined : Option Currency)
deriving Repr, DecidableEq

/-- PATCH /user/:userId/currency (part_001 lines 129–167): 404 when the
user is absent and 404 when the currency is absent, otherwise
`prisma.user.update` sets `defaultCurrencyId` and the response includes
the joined `defaultCurrency`.  `userId` and `currencyId` arrive numeric
(non-numeric values are rejected with 400 before this model's inputs). -/
def patchUserCurrency (db : DB) (userId currencyId : Nat) :
    DB × PatchUserResult :=
  match db.findUser userId with
  | none => (db, .err 404 "User not found")
  | some user =>
    match db.findCurrency currencyId with
    | none => (db, .err 404 "Currency not found")
    | some cur =>
      let updated : User := { user with defaultCurrencyId := some currencyId }
      let users := db.users.map (fun u => if u.id == userId then updated else u)
      ({ db with users := users }, .ok updated (some cur))

end V1

namespace V2

/-- Row of the `User` table after the add_auth_fields migration:
email and passwordHash are NOT NULL, email is unique. -/
structure User where
  id : Nat
  name : String
  email : String
  passwordHash : String
  defaultCurrencyId : Option Nat
deriving Repr, DecidableEq

/-- Row of the `Category` table. -/
structure Category where
  id : Nat
  name : String
deriving Repr, DecidableEq

/-- Row of the `Currency` table. -/
structure Currency where
  id : Nat
  code : String
  name : String
deriving Repr, DecidableEq

/-- Row of the `Record` table (createdAt not modelled). -/
structure Record where
  id : Nat
  userId : Nat
  categoryId : Nat
  currencyId : Nat
  amount : Int
deriving Repr, DecidableEq

/-- The relational store visible to the auth routes. -/
structure DB where
  users : List User
  categories : List Category
  currencies : List Currency
  records : List Record
  nextUserId : Nat
  nextRecordId : Nat
deriving Repr, DecidableEq

/-- `prisma.user.findUnique({ where: { id } })`. -/
def DB.findUser (db : DB) (id : Nat) : Option User :=
  db.users.find? (fun u => u.id == id)

/-- `prisma.user.findUnique({ where: { email } })`. -/
def DB.findUserByEmail (db : DB) (email : String) : Option User :=
  db.users.find? (fun u => u.email == email)

/-- `prisma.category.findUnique({ where: { id } })`. -/
def DB.findCategory (db : DB) (id : Nat) : Option Category :=
  db.categories.find? (fun c => c.id == id)

/-- `prisma.currency.findUnique({ where: { id } })`. -/
def DB.findCurrency (db : DB) (id : Nat) : Option Currency :=
  db.currencies.find? (fun c => c.id == id)

/-- An HTTP response with its JSON body. -/
structure Resp where
  status : Nat
  body : JVal

/-- A `{ message: ... }` error body. -/
def jMsg (m : String) : JVal := .obj [("message", .jstr m)]

/-- JSON encoding of a Currency row. -/
def jCurrency (c : Currency) : JVal :=
  .obj [("id", .jnum (c.id : Int)), ("code", .jstr c.code),
        ("name", .jstr c.name)]

/-- The `select { id, name, email, defaultCurrencyId }` projection of a
user, as returned by POST /user and POST /auth/login. -/
def jUserProj (u : User) : JVal :=
  .obj [("id", .jnum (u.id : Int)), ("name", .jstr u.name),
        ("email", .jstr u.email),
        ("defaultCurrencyId", jOptNat u.defaultCurrencyId)]

/-- The same projection with `defaultCurrency: true` joined in, as
returned by GET /user/:userId, GET /users and
PATCH /user/:userId/currency. -/
def jUserProjJoined (db : DB) (u : User) : JVal :=
  let cur : JVal :=
    match u.defaultCurrencyId with
    | none => .jnull
    | some d =>
      match db.findCurrency d with
      | none => .jnull
      | some c => jCurrency c
  .obj [("id", .jnum (u.id : Int)), ("name", .jstr u.name),
        ("email", .jstr u.email),
        ("defaultCurrencyId", jOptNat u.defaultCurrencyId),
        ("defaultCurrency", cur)]

/-- POST /user (part_002 lines 33–78): validates name, email and password
(`!password || password.length < 6` → 400), normalizes the email with
trim + toLowerCase, rejects a duplicate email with 400, then stores the
user with `passwordHash = bcrypt.hash(password, 10)` (abstracted as the
`hash` oracle) and answers 201 with the projection that excludes the
hash.  Body fields are `Option String`; `none` also stands for a
non-string body value, rejected by the same branch. -/
def postUser (hash : String → String) (db : DB)
    (name email password : Option String) : DB × Resp :=
  match name with
  | none => (db, ⟨400, jMsg "Field 'name' is required"⟩)
  | some nm =>
    if nm == "" then (db, ⟨400, jMsg "Field 'name' is required"⟩)
    else
      match email with
      | none => (db, ⟨400, jMsg "Field 'email' is required"⟩)
      | some em =>
        if em == "" then (db, ⟨400, jMsg "Field 'email' is required"⟩)
        else
          match password with
          | none => (db, ⟨400, jMsg "Password must be at least 6 characters long"⟩)
          | some pw =>
            if pw == "" || pw.length < 6 then
              (db, ⟨400, jMsg "Password must be at least 6 characters long"⟩)
            else
              let normalizedEmail := jsToLower (jsTrim em)
              match db.findUserByEmail normalizedEmail with
              | some _ => (db, ⟨400, jMsg "User with this email already exists"⟩)
              | none =>
                let u : User :=
                  ⟨db.nextUserId, jsTrim nm, normalizedEmail, hash pw, none⟩
                ({ db with users := db.users ++ [u],
                           nextUserId := db.nextUserId + 1 },
                 ⟨201, jUserProj u⟩)

/-- POST /auth/login (part_002 lines 80–119): validates presence of email
and password, normalizes the email, and answers the same
401 `{ message: "Invalid email or password" }` both when no user has the
email and when `bcrypt.compare` (the `cmp` oracle) rejects the password;
on success it signs a token embedding the user id (the `sign` oracle)
and returns it with the user projection. -/
def login (cmp : String → String → Bool) (sign : Nat → String) (db : DB)
    (email password : Option String) : Resp :=
  match email, password with
  | none, _ => ⟨400, jMsg "Email and password are required"⟩
  | _, none => ⟨400, jMsg "Email and password are required"⟩
  | some em, some pw =>
    if em == "" || pw == "" then ⟨400, jMsg "Email and password are required"⟩
    else
      let normalizedEmail := jsToLower (jsTrim em)
      match db.findUserByEmail normalizedEmail with
      | none => ⟨401, jMsg "Invalid email or password"⟩
      | some user =>
        if !(cmp pw user.passwordHash) then
          ⟨401, jMsg "Invalid email or password"⟩
        else
          ⟨200, .obj [("accessToken", .jstr (sign user.id)),
                      ("user", jUserProj user)]⟩

/-- Outcome of `jwt.verify` on a presented token: success with the
embedded user id, `TokenExpiredError`, or any other verification
failure. -/
inductive VerifyResult where
  | ok (userId : Nat)
  | expired
  | invalid
deriving Repr, DecidableEq

/-- Outcome of the auth middleware: a 401 rejection carrying the `error`
code and the human-readable text of the body, or proceeding to the next
handler with `req.userId` set. -/
inductive AuthOutcome where
  | reject (status : Nat) (error : String) (detail : String)
  | proceed (userId : Nat)
deriving Repr, DecidableEq

/-- authMiddleware (part_002 lines 123–159).  A missing (or empty, hence
falsy) Authorization header → 401 `authorization_required`; after
`authHeader.split(" ")`, a first part other than `"Bearer"` or a missing
or empty second part → 401 `invalid_token`; then `jwt.verify`
(the `verify` oracle): `TokenExpiredError` → 401 `token_expired`, any
other failure → 401 `invalid_token`, success sets `req.userId` to the
embedded id and calls `next()`. -/
def authMiddleware (verify : String → VerifyResult)
    (authHeader : Option String) : AuthOutcome :=
  match authHeader with
  | none => .reject 401 "authorization_required"
      "Request does not contain an access token."
  | some h =>
    if h == "" then
      .reject 401 "authorization_required"
        "Request does not contain an access token."
    else
      let parts := jsSplit ' ' h
      let scheme := parts.getD 0 ""
      let token := parts.getD 1 ""
      if !(scheme == "Bearer") || token == "" then
        .reject 401 "invalid_token"
          "Authorization header must be in the format: Bearer <token>."
      else
        match verify token with
        | .ok userId => .proceed userId
        | .expired => .reject 401 "token_expired" "The token has expired."
        | .invalid => .reject 401 "invalid_token" "Signature verification failed."

/-- GET /user/:userId (part_002 lines 165–191): 404 when absent, else the
joined projection.  The userId arrives numeric (NaN → 400 earlier). -/
def getUser (db : DB) (userId : Nat) : Resp :=
  match db.findUser userId with
  | none => ⟨404, jMsg "User not found"⟩
  | some u => ⟨200, jUserProjJoined db u⟩

/-- GET /users (part_002 lines 193–207): all users, joined projection. -/
def getUsers (db : DB) : Resp :=
  ⟨200, .arr (db.users.map (jUserProjJoined db))⟩

/-- PATCH /user/:userId/currency (part_002 lines 209–251): 404 when the
user is absent, 400 `Currency does not exist` when the currency is
absent, otherwise update `defaultCurrencyId` and answer 200 with the
joined projection.  Both ids arrive numeric (NaN → 400 earlier). -/
def patchUserCurrency (db : DB) (userId currencyId : Nat) : DB × Resp :=
  match db.findUser userId with
  | none => (db, ⟨404, jMsg "User not found"⟩)
  | some user =>
    match db.findCurrency currencyId with
    | none => (db, ⟨400, jMsg "Currency does not exist"⟩)
    | some _ =>
      let updated : User := { user with defaultCurrencyId := some currencyId }
      let users := db.users.map (fun u => if u.id == userId then updated else u)
      let db2 := { db with users := users }
      (db2, ⟨200, jUserProjJoined db2 updated⟩)

/-- DELETE /user/:userId (part_002 lines 253–271): 404 when the user is
absent; otherwise the handler calls `prisma.user.delete` directly,
without deleting the user's records first.  When records reference the
user, the `Record_userId_fkey ... ON DELETE RESTRICT` constraint makes
the delete throw, the error middleware answers 500, and nothing is
deleted; otherwise the user is removed and 204 returned. -/
def deleteUser (db : DB) (userId : Nat) : DB × SimpleResp :=
  match db.findUser userId with
  | none => (db, ⟨404, some "User not found"⟩)
  | some _ =>
    if db.records.any (fun r => r.userId == userId) then
      (db, ⟨500, some "Internal server error"⟩)
    else
      ({ db with users := db.users.filter (fun u => !(u.id == userId)) },
       ⟨204, none⟩)

/-- DELETE /currency/:id (part_002 lines 368–391): 404 when the currency
is absent; otherwise the handler calls `prisma.currency.delete` directly,
with no referencing-record check.  When records reference the currency,
the `Record_currencyId_fkey ... ON DELETE RESTRICT` constraint makes the
delete throw, the error middleware answers 500, and nothing is deleted;
otherwise the currency is removed and 204 returned.  (A user whose
`defaultCurrencyId` references it is no obstacle: that key is
`ON DELETE SET NULL`, so those references are nulled.) -/
def deleteCurrency (db : DB) (currencyId : Nat) : DB × SimpleResp :=
  match db.findCurrency currencyId with
  | none => (db, ⟨404, some "Currency not found"⟩)
  | some _ =>
    if db.records.any (fun r => r.currencyId == currencyId) then
      (db, ⟨500, some "Internal server error"⟩)
    else
      let users := db.users.map (fun u =>
        if u.defaultCurrencyId == some currencyId then
          { u with defaultCurrencyId := none }
        else u)
      ({ db with
          currencies := db.currencies.filter (fun c => !(c.id == currencyId)),
          users := users },
       ⟨204, none⟩)

/-- A request body field fed to `Number(...)`: missing (undefined/null),
present but not numeric (NaN), or numeric. -/
inductive NumParam where
  | missing
  | bad
  | num (n : Nat)
deriving Repr, DecidableEq

/-- Result of POST /record: an error response or the created row. -/
inductive RecordResult where
  | err (status : Nat) (message : String)
  | created (r : Record)
deriving Repr, DecidableEq

/-- POST /record (part_002 lines 395–461).  `userId`, `categoryId`,
`amount` arrive numeric (NaN → 400 earlier); `currencyId` is checked
against undefined/null, then parsed (`NaN` → 400), then looked up
(absent → 400); when missing, JavaScript's falsy
`!user.defaultCurrencyId` (null or 0, modelled by `getD 0 == 0`)
→ 400, otherwise the user's default currency is used. -/
def postRecord (db : DB) (userId categoryId : Nat) (amount : Int)
    (currencyId : NumParam) : DB × RecordResult :=
  match db.findUser userId with
  | none => (db, .err 400 "User does not exist")
  | some user =>
    match db.findCategory categoryId with
    | none => (db, .err 400 "Category does not exist")
    | some _ =>
      match currencyId with
      | .bad => (db, .err 400 "Invalid currency id")
      | .num c =>
        match db.findCurrency c with
        | none => (db, .err 400 "Currency does not exist")
        | some _ =>
          let rec0 : Record := ⟨db.nextRecordId, userId, categoryId, c, amount⟩
          ({ db with records := db.records ++ [rec0],
                     nextRecordId := db.nextRecordId + 1 },
           .created rec0)
      | .missing =>
        if user.defaultCurrencyId.getD 0 == 0 then
          (db, .err 400 "User has no default currency and no currencyId was provided")
        else
          let c := user.defaultCurrencyId.getD 0
          let rec0 : Record := ⟨db.nextRecordId, userId, categoryId, c, amount⟩
          ({ db with records := db.records ++ [rec0],
                     nextRecordId := db.nextRecordId + 1 },
           .created rec0)

/-- Result of GET /record: an error response or the list of matching rows
(joined includes determined by the rows). -/
inductive ListResult where
  | err (status : Nat) (message : String)
  | ok (rs : List Record)
deriving Repr, DecidableEq

/-- GET /record (part_002 lines 489–526).  This variant reads the
`userId` and `categoryId` query parameters (not `user_id`/`category_id`)
and does NOT require any filter: with no parameters it returns every
record.  A supplied non-numeric parameter → 400; supplied filters are
applied in conjunction via the Prisma `where`. -/
def getRecords (db : DB) (userIdParam categoryIdParam : QParam) : ListResult :=
  match userIdParam with
  | .invalid => .err 400 "Invalid userId"
  | .absent =>
    match categoryIdParam with
    | .invalid => .err 400 "Invalid categoryId"
    | .absent => .ok db.records
    | .val c => .ok (db.records.filter (fun r => r.categoryId == c))
  | .val u =>
    match categoryIdParam with
    | .invalid => .err 400 "Invalid categoryId"
    | .absent => .ok (db.records.filter (fun r => r.userId == u))
    | .val c => .ok (db.records.filter
        (fun r => r.userId == u && r.categoryId == c))

end V2

/-! ## Concrete example stores used by counterexamples and witnesses -/

/-- Example non-auth store: one user (default currency 1), one category,
one currency, one record referencing all three. -/
def exDB1 : V1.DB :=
  { users := [⟨1, "Alice", some 1⟩],
    categories := [⟨1, "Food"⟩],
    currencies := [⟨1, "USD", "US Dollar"⟩],
    records := [⟨1, 1, 1, 1, 50⟩],
    nextCategoryId := 2, nextRecordId := 2 }

/-- Example auth-variant store with the same shape. -/
def exDB2 : V2.DB :=
  { users := [⟨1, "Alice", "alice@example.com", "h1", some 1⟩],
    categories := [⟨1, "Food"⟩],
    currencies := [⟨1, "USD", "US Dollar"⟩],
    records := [⟨1, 1, 1, 1, 50⟩],
    nextUserId := 2, nextRecordId := 2 }

/-- Example token verifier: exactly the token "tok" verifies, to user 7. -/
def exVerify : String → V2.VerifyResult :=
  fun t => if t == "tok" then .ok 7 else .invalid

/-! ## C1 — deleting a referenced currency -/

/-- C1 counterexample.  In the auth variant the claim fails: currency 1
exists in `exDB2` and record 1 references it, yet DELETE /currency/1
answers 500 (the handler has no referencing-record check and the
`ON DELETE RESTRICT` key makes the Prisma delete throw), not the claimed
400. -/
theorem C1_counterexample :
    (exDB2.findCurrency 1).isSome = true ∧
    exDB2.records.any (fun r => r.currencyId == 1) = true ∧
    V2.deleteCurrency exDB2 1 = (exDB2, ⟨500, some "Internal server error"⟩) ∧
    (500 : Nat) ≠ 400 := by
  refine ⟨by decide, by decide, by decide, by decide⟩

/-- C1 amended.  For an existing currency c: in the non-auth variant a
referencing record makes DELETE /currency/:id answer 400 with the store
unchanged, and with no referencing record the currency is removed and 204
returned (users whose defaultCurrencyId referenced it have it set to null
by the `ON DELETE SET NULL` key, records untouched); in the auth variant
a referencing record makes the delete fail with 500 and the store
unchanged, and with no referencing record the currency is removed and 204
returned. -/
theorem C1_theorem (db1 : V1.DB) (db2 : V2.DB) (c : Nat)
    (h1 : (db1.findCurrency c).isSome) (h2 : (db2.findCurrency c).isSome) :
    ((∃ r ∈ db1.records, r.currencyId = c) →
        V1.deleteCurrency db1 c =
          (db1, ⟨400, some "Cannot delete currency: there are records using this currency"⟩)) ∧
    ((∀ r ∈ db1.records, r.currencyId ≠ c) →
        V1.deleteCurrency db1 c =
          ({ db1 with
              currencies := db1.currencies.filter (fun cu => !(cu.id == c)),
              users := db1.users.map (fun u =>
                if u.defaultCurrencyId == some c then
                  { u with defaultCurrencyId := none }
                else u) },
           ⟨204, none⟩)) ∧
    ((∃ r ∈ db2.records, r.currencyId = c) →
        V2.deleteCurrency db2 c = (db2, ⟨500, some "Internal server error"⟩)) ∧
    ((∀ r ∈ db2.records, r.currencyId ≠ c) →
        (V2.deleteCurrency db2 c).2 = ⟨204, none⟩ ∧
        (V2.deleteCurrency db2 c).1.currencies =
          db2.currencies.filter (fun cu => !(cu.id == c)) ∧
        (V2.deleteCurrency db2 c).1.records = db2.records) := by
  obtain ⟨cur1, hc1⟩ := Option.isSome_iff_exists.mp h1
  obtain ⟨cur2, hc2⟩ := Option.isSome_iff_exists.mp h2
  refine ⟨?_, ?_, ?_, ?_⟩
  · rintro ⟨r, hr, hrc⟩
    have hmem : r ∈ db1.records.filter (fun r => r.currencyId == c) :=
      List.mem_filter.mpr ⟨hr, by simp [hrc]⟩
    have hpos : 0 < (db1.records.filter (fun r => r.currencyId == c)).length :=
      List.length_pos.mpr (List.ne_nil_of_mem hmem)
    simp [V1.deleteCurrency, hc1, hpos]
  · intro hnone
    have hnil : db1.records.filter (fun r => r.currencyId == c) = [] := by
      apply List.filter_eq_nil_iff.mpr
      intro a ha
      simp [hnone a ha]
    simp [V1.deleteCurrency, hc1, hnil]
  · rintro ⟨r, hr, hrc⟩
    have hany : db2.records.any (fun r => r.currencyId == c) = true :=
      List.any_eq_true.mpr ⟨r, hr, by simp [hrc]⟩
    simp [V2.deleteCurrency, hc2, hany]
  · intro hnone
    have hany : db2.records.any (fun r => r.currencyId == c) = false := by
      apply List.any_eq_false.mpr
      intro a ha
      simp [hnone a ha]
    simp [V2.deleteCurrency, hc2, hany]

/-- C1 witness: on the example stores with currency 1 referenced by a
record, the non-auth variant blocks with 400 and the auth variant fails
with 500. -/
theorem C1_witness :
    V1.deleteCurrency exDB1 1 =
      (exDB1, ⟨400, some "Cannot delete currency: there are records using this currency"⟩) ∧
    V2.deleteCurrency exDB2 1 = (exDB2, ⟨500, some "Internal server error"⟩) := by
  have h := C1_theorem exDB1 exDB2 1 (by decide) (by decide)
  exact ⟨h.1 ⟨⟨1, 1, 1, 1, 50⟩, by decide, rfl⟩,
         h.2.2.1 ⟨⟨1, 1, 1, 1, 50⟩, by decide, rfl⟩⟩

/-! ## C2 — deleting a user and its records -/

/-- C2 counterexample.  In the auth variant the claim fails: user 1
exists in `exDB2` and owns record 1, yet DELETE /user/1 answers 500 (the
handler deletes no records first and the `ON DELETE RESTRICT` key makes
the Prisma delete throw), not the claimed 204, with the store unchanged;
and GET /record in that variant ignores the `user_id` parameter and still
returns the record. -/
theorem C2_counterexample :
    (exDB2.findUser 1).isSome = true ∧
    V2.deleteUser exDB2 1 = (exDB2, ⟨500, some "Internal server error"⟩) ∧
    exDB2.records ≠ [] ∧
    V2.getRecords exDB2 .absent .absent = .ok [⟨1, 1, 1, 1, 50⟩] := by
  refine ⟨by decide, by decide, by decide, by decide⟩

/-- C2 amended.  For an existing user u: in the non-auth variant
DELETE /user/:userId deletes all of u's records, then u, answers 204, and
GET /record?user_id=u on the resulting store returns the empty list; in
the auth variant the handler deletes only the user, so the delete fails
with 500 and changes nothing when u owns records, and answers 204 deleting
only the user row when u owns none. -/
theorem C2_theorem (db1 : V1.DB) (db2 : V2.DB) (u : Nat)
    (h1 : (db1.findUser u).isSome) (h2 : (db2.findUser u).isSome) :
    ((V1.deleteUser db1 u).2 = ⟨204, none⟩ ∧
     (V1.deleteUser db1 u).1.records =
       db1.records.filter (fun r => !(r.userId == u)) ∧
     (V1.deleteUser db1 u).1.users =
       db1.users.filter (fun us => !(us.id == u)) ∧
     V1.getRecords (V1.deleteUser db1 u).1 (.val u) .absent = .ok []) ∧
    ((db2.records.any (fun r => r.userId == u) = true →
        V2.deleteUser db2 u = (db2, ⟨500, some "Internal server error"⟩)) ∧
     (db2.records.any (fun r => r.userId == u) = false →
        (V2.deleteUser db2 u).2 = ⟨204, none⟩ ∧
        (V2.deleteUser db2 u).1.records = db2.records ∧
        (V2.deleteUser db2 u).1.users =
          db2.users.filter (fun us => !(us.id == u)))) := by
  obtain ⟨usr1, hu1⟩ := Option.isSome_iff_exists.mp h1
  obtain ⟨usr2, hu2⟩ := Option.isSome_iff_exists.mp h2
  refine ⟨⟨?_, ?_, ?_, ?_⟩, ?_, ?_⟩
  · simp [V1.deleteUser, hu1]
  · simp [V1.deleteUser, hu1]
  · simp [V1.deleteUser, hu1]
  · simp only [V1.deleteUser, hu1, V1.getRecords]
    have : (db1.records.filter (fun r => !(r.userId == u))).filter
        (fun r => r.userId == u) = [] := by
      apply List.filter_eq_nil_iff.mpr
      intro a ha
      have := (List.mem_filter.mp ha).2
      simp at this
      simp [this]
    simp [this]
  · intro hany
    simp [V2.deleteUser, hu2, hany]
  · intro hany
    simp [V2.deleteUser, hu2, hany]

/-- C2 witness: deleting user 1 in the non-auth example store answers 204
and a subsequent GET /record?user_id=1 is empty. -/
theorem C2_witness :
    (V1.deleteUser exDB1 1).2 = ⟨204, none⟩ ∧
    V1.getRecords (V1.deleteUser exDB1 1).1 (.val 1) .absent = .ok [] := by
  have h := C2_theorem exDB1 exDB2 1 (by decide) (by decide)
  exact ⟨h.1.1, h.1.2.2.2⟩

/-! ## C3 — POST /record currency resolution -/

/-- C3.  For a POST /record whose userId and categoryId reference existing
rows, in both variants: a supplied currencyId referencing no Currency
fails with 400 and creates nothing; an omitted currencyId falls back to
the user's defaultCurrencyId (when set, and nonzero — JavaScript treats 0
as falsy, though generated ids never are 0); an omitted currencyId with a
null default fails with 400 and creates nothing. -/
theorem C3_theorem (db1 : V1.DB) (db2 : V2.DB) (u cat : Nat) (amt : Int)
    (usr1 : V1.User) (usr2 : V2.User)
    (hu1 : db1.findUser u = some usr1) (hc1 : (db1.findCategory cat).isSome)
    (hu2 : db2.findUser u = some usr2) (hc2 : (db2.findCategory cat).isSome) :
    ((∀ cid, db1.findCurrency cid = none →
        V1.postRecord db1 u cat amt (some cid) =
          (db1, .err 400 "Currency does not exist")) ∧
     (∀ d, usr1.defaultCurrencyId = some d → d ≠ 0 →
        V1.postRecord db1 u cat amt none =
          ({ db1 with records := db1.records ++ [⟨db1.nextRecordId, u, cat, d, amt⟩],
                      nextRecordId := db1.nextRecordId + 1 },
           .created ⟨db1.nextRecordId, u, cat, d, amt⟩)) ∧
     (usr1.defaultCurrencyId = none →
        V1.postRecord db1 u cat amt none =
          (db1, .err 400 "User has no default currency and no currencyId was provided"))) ∧
    ((∀ cid, db2.findCurrency cid = none →
        V2.postRecord db2 u cat amt (.num cid) =
          (db2, .err 400 "Currency does not exist")) ∧
     (∀ d, usr2.defaultCurrencyId = some d → d ≠ 0 →
        V2.postRecord db2 u cat amt .missing =
          ({ db2 with records := db2.records ++ [⟨db2.nextRecordId, u, cat, d, amt⟩],
                      nextRecordId := db2.nextRecordId + 1 },
           .created ⟨db2.nextRecordId, u, cat, d, amt⟩)) ∧
     (usr2.defaultCurrencyId = none →
        V2.postRecord db2 u cat amt .missing =
          (db2, .err 400 "User has no default currency and no currencyId was provided"))) := by
  obtain ⟨cat1, hcat1⟩ := Option.isSome_iff_exists.mp hc1
  obtain ⟨cat2, hcat2⟩ := Option.isSome_iff_exists.mp hc2
  refine ⟨⟨?_, ?_, ?_⟩, ?_, ?_, ?_⟩
  · intro cid hcid
    simp [V1.postRecord, hu1, hcat1, hcid]
  · intro d hd hd0
    simp [V1.postRecord, hu1, hcat1, hd, hd0]
  · intro hd
    simp [V1.postRecord, hu1, hcat1, hd]
  · intro cid hcid
    simp [V2.postRecord, hu2, hcat2, hcid]
  · intro d hd hd0
    simp [V2.postRecord, hu2, hcat2, hd, hd0]
  · intro hd
    simp [V2.postRecord, hu2, hcat2, hd]

/-- C3 witness: in both example stores user 1 and category 1 exist; a
POST /record for a missing currency 99 fails with 400, and an omitted
currencyId falls back to the user's default currency 1. -/
theorem C3_witness :
    V1.postRecord exDB1 1 1 50 (some 99) =
      (exDB1, .err 400 "Currency does not exist") ∧
    V1.postRecord exDB1 1 1 50 none =
      ({ exDB1 with records := exDB1.records ++ [⟨2, 1, 1, 1, 50⟩],
                    nextRecordId := 3 },
       .created ⟨2, 1, 1, 1, 50⟩) ∧
    V2.postRecord exDB2 1 1 50 .missing =
      ({ exDB2 with records := exDB2.records ++ [⟨2, 1, 1, 1, 50⟩],
                    nextRecordId := 3 },
       .created ⟨2, 1, 1, 1, 50⟩) := by
  have h := C3_theorem exDB1 exDB2 1 1 50 ⟨1, "Alice", some 1⟩
    ⟨1, "Alice", "alice@example.com", "h1", some 1⟩
    (by decide) (by decide) (by decide) (by decide)
  exact ⟨h.1.1 99 (by decide), h.1.2.1 1 rfl (by decide), h.2.2.1 1 rfl (by decide)⟩

/-! ## C4 — GET /record filters -/

/-- C4 counterexample.  In the auth variant the claim fails: a
GET /record request supplying neither `user_id` nor `category_id` (this
variant reads `userId`/`categoryId`, so both are absent) is answered 200
with every stored record, not the claimed 400. -/
theorem C4_counterexample :
    V2.getRecords exDB2 .absent .absent = .ok [⟨1, 1, 1, 1, 50⟩] ∧
    exDB2.records = [⟨1, 1, 1, 1, 50⟩] := by
  refine ⟨by decide, by decide⟩

/-- C4 amended.  The non-auth variant behaves as claimed: no filter →
400, and with both `user_id` and `category_id` supplied the returned list
holds exactly the stored records matching both (ANDed).  The auth variant
reads `userId`/`categoryId` instead, requires no filter (returning every
record with 200 when none is supplied), and also ANDs supplied filters. -/
theorem C4_theorem (db1 : V1.DB) (db2 : V2.DB) (u c : Nat) :
    V1.getRecords db1 .absent .absent =
      .err 400 "At least one of query parameters 'user_id' or 'category_id' is required" ∧
    V1.getRecords db1 (.val u) (.val c) =
      .ok ((db1.records.filter (fun r => r.userId == u)).filter
            (fun r => r.categoryId == c)) ∧
    (∀ r, r ∈ (db1.records.filter (fun r => r.userId == u)).filter
            (fun r => r.categoryId == c) ↔
       (r ∈ db1.records ∧ r.userId = u ∧ r.categoryId = c)) ∧
    V2.getRecords db2 .absent .absent = .ok db2.records ∧
    V2.getRecords db2 (.val u) (.val c) =
      .ok (db2.records.filter (fun r => r.userId == u && r.categoryId == c)) ∧
    (∀ r, r ∈ db2.records.filter (fun r => r.userId == u && r.categoryId == c) ↔
       (r ∈ db2.records ∧ r.userId = u ∧ r.categoryId = c)) := by
  refine ⟨rfl, rfl, ?_, rfl, rfl, ?_⟩
  · intro r
    simp only [List.mem_filter, beq_iff_eq, Bool.and_eq_true, and_assoc]
  · intro r
    simp only [List.mem_filter, beq_iff_eq, Bool.and_eq_true, and_assoc]

/-! ## C5 — auth middleware contract -/

/-- C5.  For any token verifier: a missing Authorization header is
rejected 401 `authorization_required`; a non-empty header whose first
space-separated part is not `Bearer` or whose second part is missing or
empty is rejected 401 `invalid_token`; otherwise the second part is
verified — expiry → 401 `token_expired`, any other failure → 401
`invalid_token`, success → the middleware proceeds with the embedded
user id attached to the request. -/
theorem C5_theorem (verify : String → V2.VerifyResult) :
    V2.authMiddleware verify none =
      .reject 401 "authorization_required" "Request does not contain an access token." ∧
    (∀ h, h ≠ "" →
      ((jsSplit ' ' h).getD 0 "" ≠ "Bearer" ∨ (jsSplit ' ' h).getD 1 "" = "") →
      V2.authMiddleware verify (some h) =
        .reject 401 "invalid_token"
          "Authorization header must be in the format: Bearer <token>.") ∧
    (∀ h, h ≠ "" → (jsSplit ' ' h).getD 0 "" = "Bearer" →
      (jsSplit ' ' h).getD 1 "" ≠ "" →
      ((verify ((jsSplit ' ' h).getD 1 "") = .expired →
          V2.authMiddleware verify (some h) =
            .reject 401 "token_expired" "The token has expired.") ∧
       (verify ((jsSplit ' ' h).getD 1 "") = .invalid →
          V2.authMiddleware verify (some h) =
            .reject 401 "invalid_token" "Signature verification failed.") ∧
       (∀ uid, verify ((jsSplit ' ' h).getD 1 "") = .ok uid →
          V2.authMiddleware verify (some h) = .proceed uid))) := by
  refine ⟨rfl, ?_, ?_⟩
  · intro h hne hbad
    rcases hbad with hbad | hbad <;>
      simp only [List.getD_eq_getElem?_getD] at hbad <;>
      simp [V2.authMiddleware, hne, hbad]
  · intro h hne hscheme htoken
    simp only [List.getD_eq_getElem?_getD] at hscheme htoken
    refine ⟨?_, ?_, ?_⟩
    · intro hv
      simp only [List.getD_eq_getElem?_getD] at hv
      simp [V2.authMiddleware, hne, hscheme, htoken, hv]
    · intro hv
      simp only [List.getD_eq_getElem?_getD] at hv
      simp [V2.authMiddleware, hne, hscheme, htoken, hv]
    · intro uid hv
      simp only [List.getD_eq_getElem?_getD] at hv
      simp [V2.authMiddleware, hne, hscheme, htoken, hv]

/-- C5 witness: with the example verifier, a request without a header is
rejected `authorization_required`, a `Token tok` header is rejected
`invalid_token`, an invalid bearer token is rejected `invalid_token`, and
`Bearer tok` proceeds as user 7. -/
theorem C5_witness :
    V2.authMiddleware exVerify none =
      .reject 401 "authorization_required" "Request does not contain an access token." ∧
    V2.authMiddleware exVerify (some "Token tok") =
      .reject 401 "invalid_token"
        "Authorization header must be in the format: Bearer <token>." ∧
    V2.authMiddleware exVerify (some "Bearer bad") =
      .reject 401 "invalid_token" "Signature verification failed." ∧
    V2.authMiddleware exVerify (some "Bearer tok") = .proceed 7 := by
  have h := C5_theorem exVerify
  refine ⟨h.1, ?_, ?_, ?_⟩
  · exact h.2.1 "Token tok" (by decide) (Or.inl (by decide))
  · exact (h.2.2 "Bearer bad" (by decide) (by decide) (by decide)).2.1 (by decide)
  · exact (h.2.2 "Bearer tok" (by decide) (by decide) (by decide)).2.2 7 (by decide)

/-! ## C6 — login does not reveal email registration -/

/-- C6.  For a login request with a non-empty email and password, the
response when no user holds the normalized email and the response when
the user exists but the stored hash rejects the password are the same
401 body `{ message: "Invalid email or password" }`. -/
theorem C6_theorem (cmp : String → String → Bool) (sign : Nat → String)
    (db : V2.DB) (email pw : String) (he : email ≠ "") (hp : pw ≠ "") :
    (db.findUserByEmail (jsToLower (jsTrim email)) = none →
       V2.login cmp sign db (some email) (some pw) =
         ⟨401, V2.jMsg "Invalid email or password"⟩) ∧
    (∀ u, db.findUserByEmail (jsToLower (jsTrim email)) = some u →
       cmp pw u.passwordHash = false →
       V2.login cmp sign db (some email) (some pw) =
         ⟨401, V2.jMsg "Invalid email or password"⟩) := by
  constructor
  · intro hu
    simp [V2.login, he, hp, hu]
  · intro u hu hcmp
    simp [V2.login, he, hp, hu, hcmp]

/-- C6 witness: against the example store, logging in with an
unregistered email and logging in as the registered user with a rejected
password produce the identical 401 response. -/
theorem C6_witness :
    V2.login (fun _ _ => false) (fun _ => "t") exDB2
      (some "ghost@example.com") (some "pw") =
      ⟨401, V2.jMsg "Invalid email or password"⟩ ∧
    V2.login (fun _ _ => false) (fun _ => "t") exDB2
      (some "alice@example.com") (some "pw") =
      ⟨401, V2.jMsg "Invalid email or password"⟩ := by
  constructor
  · exact (C6_theorem (fun _ _ => false) (fun _ => "t") exDB2
      "ghost@example.com" "pw" (by decide) (by decide)).1 (by decide)
  · exact (C6_theorem (fun _ _ => false) (fun _ => "t") exDB2
      "alice@example.com" "pw" (by decide) (by decide)).2
      ⟨1, "Alice", "alice@example.com", "h1", some 1⟩ (by decide) rfl

/-! ## Helper lemmas: no `passwordHash` key in encoded bodies -/

/-- An encoded optional id never carries any object key. -/
lemma noPW_jOptNat (k : String) (x : Option Nat) :
    JVal.hasKeyDeep k (jOptNat x) = false := by
  cases x <;> simp [jOptNat, JVal.hasKeyDeep]

/-- A `{ message: ... }` body carries no `passwordHash` key. -/
lemma noPW_jMsg (m : String) :
    JVal.hasKeyDeep "passwordHash" (V2.jMsg m) = false := by
  simp [V2.jMsg, JVal.hasKeyDeep]

/-- An encoded Currency carries no `passwordHash` key. -/
lemma noPW_jCurrency (c : V2.Currency) :
    JVal.hasKeyDeep "passwordHash" (V2.jCurrency c) = false := by
  simp [V2.jCurrency, JVal.hasKeyDeep]

/-- The plain user projection carries no `passwordHash` key. -/
lemma noPW_jUserProj (u : V2.User) :
    JVal.hasKeyDeep "passwordHash" (V2.jUserProj u) = false := by
  simp [V2.jUserProj, JVal.hasKeyDeep, noPW_jOptNat]

/-- The joined user projection carries no `passwordHash` key. -/
lemma noPW_jUserProjJoined (db : V2.DB) (u : V2.User) :
    JVal.hasKeyDeep "passwordHash" (V2.jUserProjJoined db u) = false := by
  unfold V2.jUserProjJoined
  cases hd : u.defaultCurrencyId with
  | none => simp [JVal.hasKeyDeep, noPW_jOptNat, hd]
  | some d =>
    cases hc : db.findCurrency d <;>
      simp [JVal.hasKeyDeep, noPW_jOptNat, noPW_jCurrency, hd, hc]

/-- An array of joined user projections carries no `passwordHash` key. -/
lemma noPW_usersArr (db : V2.DB) (l : List V2.User) :
    JVal.hasKeyDeep "passwordHash" (.arr (l.map (V2.jUserProjJoined db))) = false := by
  induction l with
  | nil => simp [JVal.hasKeyDeep]
  | cons u t ih => simp [JVal.hasKeyDeep, noPW_jUserProjJoined, ih]

/-! ## C7 — registration -/

/-- C7.  POST /user in the auth variant: a missing or empty name, a
missing or empty email, or a missing, empty or shorter-than-6 password
fails with 400 and leaves the store unchanged; otherwise the email is
normalized by trim and lowercase, a user holding the normalized email
forces 400 with the store unchanged, and on success the new user is
stored with the salted hash of the password and 201 answers with the
projection, which carries no `passwordHash` key. -/
theorem C7_theorem (hash : String → String) (db : V2.DB)
    (name email password : Option String) :
    ((name = none ∨ name = some "") →
       V2.postUser hash db name email password =
         (db, ⟨400, V2.jMsg "Field 'name' is required"⟩)) ∧
    (∀ nm, name = some nm → nm ≠ "" → (email = none ∨ email = some "") →
       V2.postUser hash db name email password =
         (db, ⟨400, V2.jMsg "Field 'email' is required"⟩)) ∧
    (∀ nm em, name = some nm → nm ≠ "" → email = some em → em ≠ "" →
       (password = none ∨ (∃ p, password = some p ∧ (p = "" ∨ p.length < 6))) →
       V2.postUser hash db name email password =
         (db, ⟨400, V2.jMsg "Password must be at least 6 characters long"⟩)) ∧
    (∀ nm em p u, name = some nm → nm ≠ "" → email = some em → em ≠ "" →
       password = some p → p ≠ "" → 6 ≤ p.length →
       db.findUserByEmail (jsToLower (jsTrim em)) = some u →
       V2.postUser hash db name email password =
         (db, ⟨400, V2.jMsg "User with this email already exists"⟩)) ∧
    (∀ nm em p, name = some nm → nm ≠ "" → email = some em → em ≠ "" →
       password = some p → p ≠ "" → 6 ≤ p.length →
       db.findUserByEmail (jsToLower (jsTrim em)) = none →
       V2.postUser hash db name email password =
         ({ db with
              users := db.users ++
                [⟨db.nextUserId, jsTrim nm, jsToLower (jsTrim em), hash p, none⟩],
              nextUserId := db.nextUserId + 1 },
          ⟨201, V2.jUserProj
            ⟨db.nextUserId, jsTrim nm, jsToLower (jsTrim em), hash p, none⟩⟩) ∧
       JVal.hasKeyDeep "passwordHash"
         (V2.jUserProj ⟨db.nextUserId, jsTrim nm, jsToLower (jsTrim em), hash p, none⟩)
         = false) := by
  refine ⟨?_, ?_, ?_, ?_, ?_⟩
  · rintro (h | h) <;> simp [V2.postUser, h]
  · rintro nm rfl hnm (h | h) <;> simp [V2.postUser, hnm, h]
  · rintro nm em rfl hnm rfl hem hbad
    rcases hbad with rfl | ⟨p, rfl, rfl | hp⟩
    · simp [V2.postUser, hnm, hem]
    · simp [V2.postUser, hnm, hem]
    · simp [V2.postUser, hnm, hem, hp]
  · rintro nm em p u rfl hnm rfl hem rfl hp hlen hu
    simp [V2.postUser, hnm, hem, hp, Nat.not_lt.mpr hlen, hu]
  · rintro nm em p rfl hnm rfl hem rfl hp hlen hu
    refine ⟨?_, noPW_jUserProj _⟩
    simp [V2.postUser, hnm, hem, hp, Nat.not_lt.mpr hlen, hu]

/-- C7 witness: registering Bob with a fresh email succeeds, stores the
hashed password, and the 201 body lacks the passwordHash key; registering
with Alice's email fails with 400; a five-character password fails with
400. -/
theorem C7_witness :
    (V2.postUser (fun s => "H" ++ s) exDB2
        (some "Bob") (some " Bob@Example.com ") (some "secret1") =
      ({ exDB2 with
           users := exDB2.users ++ [⟨2, "Bob", "bob@example.com", "Hsecret1", none⟩],
           nextUserId := 3 },
       ⟨201, V2.jUserProj ⟨2, "Bob", "bob@example.com", "Hsecret1", none⟩⟩) ∧
     JVal.hasKeyDeep "passwordHash"
       (V2.jUserProj ⟨2, "Bob", "bob@example.com", "Hsecret1", none⟩) = false) ∧
    V2.postUser (fun s => "H" ++ s) exDB2
        (some "Bob") (some "alice@example.com") (some "secret1") =
      (exDB2, ⟨400, V2.jMsg "User with this email already exists"⟩) ∧
    V2.postUser (fun s => "H" ++ s) exDB2
        (some "Bob") (some "bob@example.com") (some "12345") =
      (exDB2, ⟨400, V2.jMsg "Password must be at least 6 characters long"⟩) := by
  refine ⟨?_, ?_, ?_⟩
  · exact (C7_theorem (fun s => "H" ++ s) exDB2 (some "Bob")
      (some " Bob@Example.com ") (some "secret1")).2.2.2.2
      "Bob" " Bob@Example.com " "secret1" rfl (by decide) rfl
      (by decide) rfl (by decide) (by decide) (by decide)
  · exact (C7_theorem (fun s => "H" ++ s) exDB2 (some "Bob")
      (some "alice@example.com") (some "secret1")).2.2.2.1
      "Bob" "alice@example.com" "secret1"
      ⟨1, "Alice", "alice@example.com", "h1", some 1⟩ rfl (by decide) rfl
      (by decide) rfl (by decide) (by decide) (by decide)
  · exact (C7_theorem (fun s => "H" ++ s) exDB2 (some "Bob")
      (some "bob@example.com") (some "12345")).2.2.1
      "Bob" "bob@example.com" rfl (by decide) rfl (by decide)
      (Or.inr ⟨"12345", rfl, Or.inr (by decide)⟩)

/-! ## C8 — PATCH /user/:userId/currency -/

/-- C8 counterexample.  In the non-auth variant the claim fails: user 1
exists in `exDB1` and currency 99 does not, yet the handler answers 404
(`Currency not found`), not the claimed 400. -/
theorem C8_counterexample :
    (exDB1.findUser 1).isSome = true ∧
    exDB1.findCurrency 99 = none ∧
    V1.patchUserCurrency exDB1 1 99 = (exDB1, .err 404 "Currency not found") := by
  refine ⟨by decide, by decide, by decide⟩

/-- C8 amended.  For numeric userId and currencyId: a missing user is
404 in both variants; an existing user with a missing currency is
answered 404 by the non-auth variant and 400 by the auth variant; when
both exist, both variants persist the new defaultCurrencyId and answer
200 with the updated user joined with its default currency. -/
theorem C8_theorem (db1 : V1.DB) (db2 : V2.DB) (uid cid : Nat) :
    (db1.findUser uid = none →
       V1.patchUserCurrency db1 uid cid = (db1, .err 404 "User not found")) ∧
    (db2.findUser uid = none →
       V2.patchUserCurrency db2 uid cid = (db2, ⟨404, V2.jMsg "User not found"⟩)) ∧
    (∀ usr1, db1.findUser uid = some usr1 → db1.findCurrency cid = none →
       V1.patchUserCurrency db1 uid cid = (db1, .err 404 "Currency not found")) ∧
    (∀ usr2, db2.findUser uid = some usr2 → db2.findCurrency cid = none →
       V2.patchUserCurrency db2 uid cid =
         (db2, ⟨400, V2.jMsg "Currency does not exist"⟩)) ∧
    (∀ usr1 cur1, db1.findUser uid = some usr1 →
       db1.findCurrency cid = some cur1 →
       V1.patchUserCurrency db1 uid cid =
         ({ db1 with users := db1.users.map (fun u =>
              if u.id == uid then { usr1 with defaultCurrencyId := some cid }
              else u) },
          .ok { usr1 with defaultCurrencyId := some cid } (some cur1))) ∧
    (∀ usr2 cur2, db2.findUser uid = some usr2 →
       db2.findCurrency cid = some cur2 →
       V2.patchUserCurrency db2 uid cid =
         ({ db2 with users := db2.users.map (fun u =>
              if u.id == uid then { usr2 with defaultCurrencyId := some cid }
              else u) },
          ⟨200, .obj [("id", .jnum (usr2.id : Int)), ("name", .jstr usr2.name),
                      ("email", .jstr usr2.email),
                      ("defaultCurrencyId", .jnum (cid : Int)),
                      ("defaultCurrency", V2.jCurrency cur2)]⟩)) := by
  refine ⟨?_, ?_, ?_, ?_, ?_, ?_⟩
  · intro hu; simp [V1.patchUserCurrency, hu]
  · intro hu; simp [V2.patchUserCurrency, hu]
  · intro usr1 hu hc; simp [V1.patchUserCurrency, hu, hc]
  · intro usr2 hu hc; simp [V2.patchUserCurrency, hu, hc]
  · intro usr1 cur1 hu hc; simp [V1.patchUserCurrency, hu, hc]
  · intro usr2 cur2 hu hc
    have hc' : db2.currencies.find? (fun c => c.id == cid) = some cur2 := hc
    simp only [V2.patchUserCurrency, hu, hc, V2.jUserProjJoined,
      V2.DB.findCurrency, hc', jOptNat]

/-- C8 witness: on the example stores, patching user 1 to the existing
currency 1 persists it and answers the joined user in both variants, and
patching toward the missing currency 99 is 404 in the non-auth variant
and 400 in the auth variant. -/
theorem C8_witness :
    V1.patchUserCurrency exDB1 1 1 =
      ({ exDB1 with users := [⟨1, "Alice", some 1⟩] },
       .ok ⟨1, "Alice", some 1⟩ (some ⟨1, "USD", "US Dollar"⟩)) ∧
    V2.patchUserCurrency exDB2 1 99 =
      (exDB2, ⟨400, V2.jMsg "Currency does not exist"⟩) := by
  constructor
  · have := (C8_theorem exDB1 exDB2 1 1).2.2.2.2.1 ⟨1, "Alice", some 1⟩
      ⟨1, "USD", "US Dollar"⟩ (by decide) (by decide)
    simpa using this
  · exact (C8_theorem exDB1 exDB2 1 99).2.2.2.1
      ⟨1, "Alice", "alice@example.com", "h1", some 1⟩ (by decide) (by decide)

/-! ## C9 — category names and trimming -/

/-- C9 counterexample.  POST /category accepts the whitespace-only name
`" "` (it is a non-empty string, so `!name` does not reject it) and
persists `" ".trim() = ""`: a category whose stored name trims to the
empty string is created with 201, contradicting the claimed invariant. -/
theorem C9_counterexample :
    V1.postCategory exDB1 (some " ") =
      ({ exDB1 with categories := exDB1.categories ++ [⟨2, ""⟩],
                    nextCategoryId := 3 },
       .created ⟨2, ""⟩) ∧
    jsTrim (V1.Category.name ⟨2, ""⟩) = "" := by
  refine ⟨by decide, by decide⟩

/-- C9 amended.  Every category accepted by POST /category comes from a
non-empty submitted name string and is stored with that name trimmed —
which may itself be empty (whitespace-only submissions), so only the
submitted name, not the stored one, is guaranteed non-empty. -/
theorem C9_theorem (db : V1.DB) (name : Option String) (cat : V1.Category)
    (h : (V1.postCategory db name).2 = .created cat) :
    ∃ s, name = some s ∧ s ≠ "" ∧ cat = ⟨db.nextCategoryId, jsTrim s⟩ := by
  cases name with
  | none => simp [V1.postCategory] at h
  | some s =>
    by_cases hs : s = ""
    · subst hs
      simp [V1.postCategory] at h
    · refine ⟨s, rfl, hs, ?_⟩
      simp [V1.postCategory, hs] at h
      exact h.symm

/-- C9 witness: the accepted category `"Food"` on the example store comes
from the non-empty submission `"Food"` and is stored trimmed. -/
theorem C9_witness :
    ∃ s, (some "Food" : Option String) = some s ∧ s ≠ "" ∧
      (⟨2, "Food"⟩ : V1.Category) = ⟨exDB1.nextCategoryId, jsTrim s⟩ :=
  C9_theorem exDB1 (some "Food") ⟨2, "Food"⟩ (by decide)

/-! ## C10 — no passwordHash in any auth-variant response body -/

/-- C10.  In the auth variant, no response body of POST /user,
POST /auth/login, GET /user/:userId, GET /users or
PATCH /user/:userId/currency — success or failure, over every store,
hash/compare/sign oracle and input — contains the `passwordHash` key at
any depth: user data only leaves through the
id/name/email/defaultCurrencyId('/defaultCurrency') projections. -/
theorem C10_theorem (hash : String → String) (cmp : String → String → Bool)
    (sign : Nat → String) (db : V2.DB) (uid cid : Nat)
    (name email password : Option String) :
    JVal.hasKeyDeep "passwordHash"
      (V2.postUser hash db name email password).2.body = false ∧
    JVal.hasKeyDeep "passwordHash"
      (V2.login cmp sign db email password).body = false ∧
    JVal.hasKeyDeep "passwordHash" (V2.getUser db uid).body = false ∧
    JVal.hasKeyDeep "passwordHash" (V2.getUsers db).body = false ∧
    JVal.hasKeyDeep "passwordHash"
      (V2.patchUserCurrency db uid cid).2.body = false := by
  refine ⟨?_, ?_, ?_, ?_, ?_⟩
  · rcases name with _ | nm
    · simp [V2.postUser, noPW_jMsg]
    · by_cases hnm : nm = ""
      · simp [V2.postUser, hnm, noPW_jMsg]
      · rcases email with _ | em
        · simp [V2.postUser, hnm, noPW_jMsg]
        · by_cases hem : em = ""
          · simp [V2.postUser, hnm, hem, noPW_jMsg]
          · rcases password with _ | pw
            · simp [V2.postUser, hnm, hem, noPW_jMsg]
            · cases hpw : (pw == "" || decide (pw.length < 6)) with
              | true => simp [V2.postUser, hnm, hem, hpw, noPW_jMsg]
              | false =>
                cases hfind : db.findUserByEmail (jsToLower (jsTrim em)) with
                | some u => simp [V2.postUser, hnm, hem, hpw, hfind, noPW_jMsg]
                | none => simp [V2.postUser, hnm, hem, hpw, hfind, noPW_jUserProj]
  · rcases email with _ | em
    · simp [V2.login, noPW_jMsg]
    · rcases password with _ | pw
      · simp [V2.login, noPW_jMsg]
      · cases h0 : (em == "" || pw == "") with
        | true => simp [V2.login, h0, noPW_jMsg]
        | false =>
          cases hfind : db.findUserByEmail (jsToLower (jsTrim em)) with
          | none => simp [V2.login, h0, hfind, noPW_jMsg]
          | some u =>
            cases hcmp : cmp pw u.passwordHash with
            | false => simp [V2.login, h0, hfind, hcmp, noPW_jMsg]
            | true =>
              simp [V2.login, h0, hfind, hcmp, noPW_jUserProj, JVal.hasKeyDeep]
  · unfold V2.getUser
    split
    · simp [noPW_jMsg]
    · simp [noPW_jUserProjJoined]
  · simpa [V2.getUsers] using noPW_usersArr db db.users
  · unfold V2.patchUserCurrency
    repeat' split
    all_goals
      simp [noPW_jMsg, noPW_jUserProjJoined]
